import Mathlib

/-!
Verification development for the `wav` package of the `husafan/audio`
repository (file `src/wav/wav.go`).

The Go code is shallowly embedded as follows:

* a sequential byte source (`io.Reader`) is a `List Nat` of bytes; a read
  consumes a prefix of the list;
* a random-access byte sink (`io.WriterAt`) is a fixed-capacity `List Nat`;
  a positioned write succeeds exactly when it fits inside the capacity
  (this is the semantics of the repository's own `mockWriterAtCloser` test
  sink: `if int(off)+len(p) > len(m.data) { return 0, error }`);
* machine integers `uint16` / `uint32` are `Nat` with explicit `% 2^16` /
  `% 2^32` where the Go code can overflow;
* fallible Go functions returning `(T, error)` become `Except WavError T`,
  and the mutating `AddSample` method returns its post-state paired with
  an `Option WavError`;
* `binary.Read` on an n-byte value follows `io.ReadFull`: an empty source
  yields `io.EOF`, a short (but non-empty) source yields
  `io.ErrUnexpectedEOF`.

Two embeddings of the writer are given.  The functional one (`WavWriter`,
`NewWavWriter`, `AddSample`) gives every writer its own copy of the
package-level `defaultRiffHeader` / `defaultDataChunk` values, i.e. it
models a writer constructed while those package variables still hold
their initial values.  The second one (`PkgState`, `NewWavWriterG`,
`AddSampleG`) models the Go pointer aliasing faithfully: in the source,
`NewWavWriter` stores the package-level pointers `defaultRiffHeader` and
`defaultDataChunk` in every writer it creates, so all writers share the
same header cells; `PkgState` is the mutable content of those shared
cells and `AddSampleG` reads and writes it.
-/

deriving instance DecidableEq for Except

namespace WavSpec

/-- Error kinds of the wav package (`src/wav/wav.go`).  `eof` and
`unexpectedEOF` are Go's `io.EOF` and `io.ErrUnexpectedEOF` propagated by
`binary.Read`; the tag errors carry the offending tag decoded as a
big-endian ASCII string; `formatReadErr` is the wrapper
`"error reading format: %v"` of `readRiffHeader`; `writeErr` is an
underlying I/O error of the sink. -/
inductive WavError where
  | eof
  | unexpectedEOF
  | riffErr (actual : String)
  | waveErr (actual : String)
  | fmtErr (actual : String)
  | dataErr (actual : String)
  | formatReadErr (msg : String)
  | channelErr (expected found : Nat)
  | sampleErr (expected found : Nat)
  | writeErr
deriving DecidableEq, Repr

/-- The ASCII single-quote character, used in the Go error format strings. -/
def quoteStr : String := String.singleton (Char.ofNat 39)

/-- Constant `Riff` of wav.go. -/
def Riff : String := "RIFF"

/-- Constant `Wave` of wav.go. -/
def Wave : String := "WAVE"

/-- Constant `Fmt` of wav.go. -/
def Fmt : String := "fmt "

/-- Constant `Data` of wav.go. -/
def Data : String := "data"

/-- Constant `RiffSizeOffset` of wav.go. -/
def RiffSizeOffset : Nat := 4

/-- Constant `DataSizeOffset` of wav.go. -/
def DataSizeOffset : Nat := 40

/-- Constant `DataOffset` of wav.go. -/
def DataOffset : Nat := 44

/-- The error text of each error, mirroring the format-string constants
`RiffError`, `WaveError`, `FmtError`, `DataError`, `ChannelError`,
`SampleError` of wav.go and the texts of Go's `io.EOF` and
`io.ErrUnexpectedEOF`.  The text of `writeErr` belongs to the sink, not
to the wav package; a fixed placeholder is used. -/
def errMessage : WavError → String
  | WavError.eof => "EOF"
  | WavError.unexpectedEOF => "unexpected EOF"
  | WavError.riffErr a =>
      "invalid initial chunk ID of " ++ a ++ "; should be " ++
        quoteStr ++ "RIFF" ++ quoteStr
  | WavError.waveErr a =>
      "invalid format of " ++ a ++ "; should be " ++
        quoteStr ++ "WAVE" ++ quoteStr
  | WavError.fmtErr a =>
      "invalid fmt chunk ID of " ++ a ++ "; should be " ++
        quoteStr ++ "fmt " ++ quoteStr ++ "."
  | WavError.dataErr a =>
      "invalid data chunk ID of " ++ a ++ "; should be " ++
        quoteStr ++ "data" ++ quoteStr
  | WavError.formatReadErr m => "error reading format: " ++ m
  | WavError.channelErr e f =>
      "expected " ++ toString e ++ " channels; found " ++ toString f ++ "."
  | WavError.sampleErr e f =>
      "expected " ++ toString e ++ " bytes per sample but only found " ++
        toString f
  | WavError.writeErr => "sink write error"

/-- `SubChunk` of wav.go: a chunk ID (big-endian on the wire) and a size
(little-endian on the wire). -/
structure SubChunk where
  Id : Nat
  Size : Nat
deriving DecidableEq, Repr

/-- `RiffHeader` of wav.go (`SubChunk` embedding flattened): ID, size and
the format field. -/
structure RiffHeader where
  Id : Nat
  Size : Nat
  Format : Nat
deriving DecidableEq, Repr

/-- `FmtChunk` of wav.go with its embedded `SubChunk` and `fmtChunk`
flattened into one record. -/
structure FmtChunk where
  Id : Nat
  Size : Nat
  AudioFormat : Nat
  NumChannels : Nat
  SampleRate : Nat
  ByteRate : Nat
  BlockAlign : Nat
  BitsPerSample : Nat
deriving DecidableEq, Repr

/-- `Sample` of wav.go: a slice of per-channel byte slices. -/
abbrev Sample : Type := List (List Nat)

/-- `DataChunk` of wav.go: ID, size and the accumulated samples. -/
structure DataChunk where
  Id : Nat
  Size : Nat
  Samples : List Sample
deriving DecidableEq, Repr

/-- `defaultRiffHeader` of wav.go: ID 1380533830 ("RIFF"), size 36,
format 1463899717 ("WAVE"). -/
def defaultRiffHeader : RiffHeader :=
  { Id := 1380533830, Size := 36, Format := 1463899717 }

/-- `defaultDataChunk` of wav.go: ID 1684108385 ("data"), size 0, no
samples. -/
def defaultDataChunk : DataChunk :=
  { Id := 1684108385, Size := 0, Samples := [] }

/-- `NewDefaultFmtChunk` of wav.go: ID 1718449184 ("fmt "), size 16, PCM,
2 channels, 44100 Hz, byte rate 176400, block align 4, 16 bits per
sample. -/
def NewDefaultFmtChunk : FmtChunk :=
  { Id := 1718449184, Size := 16, AudioFormat := 1, NumChannels := 2,
    SampleRate := 44100, ByteRate := 176400, BlockAlign := 4,
    BitsPerSample := 16 }

/-- `uint32AsString` of wav.go: the four bytes of a `uint32`, read
most-significant first, as a string. -/
def uint32AsString (n : Nat) : String :=
  String.mk [Char.ofNat (n / 16777216 % 256), Char.ofNat (n / 65536 % 256),
    Char.ofNat (n / 256 % 256), Char.ofNat (n % 256)]

/-- `binary.Read` of a big-endian `uint32`: consume four bytes.  An empty
source is `io.EOF`, a 1-3 byte source is `io.ErrUnexpectedEOF`. -/
def readU32BE : List Nat → Except WavError (Nat × List Nat)
  | a :: b :: c :: d :: rest =>
      Except.ok (a * 16777216 + b * 65536 + c * 256 + d, rest)
  | [] => Except.error WavError.eof
  | _ => Except.error WavError.unexpectedEOF

/-- `binary.Read` of a little-endian `uint32`: consume four bytes. -/
def readU32LE : List Nat → Except WavError (Nat × List Nat)
  | a :: b :: c :: d :: rest =>
      Except.ok (a + b * 256 + c * 65536 + d * 16777216, rest)
  | [] => Except.error WavError.eof
  | _ => Except.error WavError.unexpectedEOF

/-- `readSubChunk` of wav.go: a big-endian ID then a little-endian size. -/
def readSubChunk (s : List Nat) : Except WavError (SubChunk × List Nat) :=
  match readU32BE s with
  | Except.error e => Except.error e
  | Except.ok (id, s1) =>
    match readU32LE s1 with
    | Except.error e => Except.error e
    | Except.ok (size, s2) => Except.ok ({ Id := id, Size := size }, s2)

/-- `readRiffHeader` of wav.go: read a sub-chunk, validate its ID against
"RIFF", read the big-endian format field (wrapping a read failure in
"error reading format: %v") and validate it against "WAVE". -/
def readRiffHeader (s : List Nat) : Except WavError (RiffHeader × List Nat) :=
  match readSubChunk s with
  | Except.error e => Except.error e
  | Except.ok (sc, s1) =>
    if uint32AsString sc.Id = Riff then
      match readU32BE s1 with
      | Except.error e => Except.error (WavError.formatReadErr (errMessage e))
      | Except.ok (format, s2) =>
        if uint32AsString format = Wave then
          Except.ok ({ Id := sc.Id, Size := sc.Size, Format := format }, s2)
        else Except.error (WavError.waveErr (uint32AsString format))
    else Except.error (WavError.riffErr (uint32AsString sc.Id))

/-- `binary.Read` of the 16-byte little-endian `fmtChunk` payload
(audio format, channels, sample rate, byte rate, block align, bits per
sample), read in one aligned read as in wav.go. -/
def readFmtPayload : List Nat →
    Except WavError ((Nat × Nat × Nat × Nat × Nat × Nat) × List Nat)
  | a0 :: a1 :: b0 :: b1 :: c0 :: c1 :: c2 :: c3 ::
      d0 :: d1 :: d2 :: d3 :: e0 :: e1 :: f0 :: f1 :: rest =>
      Except.ok ((a0 + a1 * 256, b0 + b1 * 256,
        c0 + c1 * 256 + c2 * 65536 + c3 * 16777216,
        d0 + d1 * 256 + d2 * 65536 + d3 * 16777216,
        e0 + e1 * 256, f0 + f1 * 256), rest)
  | [] => Except.error WavError.eof
  | _ => Except.error WavError.unexpectedEOF

/-- `readFormatChunk` of wav.go: read a sub-chunk, validate its ID against
"fmt ", then read the 16-byte payload. -/
def readFormatChunk (s : List Nat) : Except WavError (FmtChunk × List Nat) :=
  match readSubChunk s with
  | Except.error e => Except.error e
  | Except.ok (sc, s1) =>
    if uint32AsString sc.Id = Fmt then
      match readFmtPayload s1 with
      | Except.error e => Except.error e
      | Except.ok ((af, nc, sr, br, ba, bps), s2) =>
        Except.ok ({ Id := sc.Id, Size := sc.Size, AudioFormat := af,
                     NumChannels := nc, SampleRate := sr, ByteRate := br,
                     BlockAlign := ba, BitsPerSample := bps }, s2)
    else Except.error (WavError.fmtErr (uint32AsString sc.Id))

/-- `readDataChunk` of wav.go: read a sub-chunk and validate its ID
against "data"; the payload is not read. -/
def readDataChunk (s : List Nat) : Except WavError (DataChunk × List Nat) :=
  match readSubChunk s with
  | Except.error e => Except.error e
  | Except.ok (sc, s1) =>
    if uint32AsString sc.Id = Data then
      Except.ok ({ Id := sc.Id, Size := sc.Size, Samples := [] }, s1)
    else Except.error (WavError.dataErr (uint32AsString sc.Id))

/-- `WavReader` of wav.go: the parsed headers and the remaining byte
source. -/
structure WavReader where
  Riff : RiffHeader
  Fmt : FmtChunk
  Data : DataChunk
  buffer : List Nat
deriving DecidableEq, Repr

/-- `NewWavReader` of wav.go: eagerly parse and validate the RIFF header,
the fmt chunk and the data chunk header; fail on the first error. -/
def NewWavReader (s : List Nat) : Except WavError WavReader :=
  match readRiffHeader s with
  | Except.error e => Except.error e
  | Except.ok (riff, s1) =>
    match readFormatChunk s1 with
    | Except.error e => Except.error e
    | Except.ok (fmt, s2) =>
      match readDataChunk s2 with
      | Except.error e => Except.error e
      | Except.ok (data, s3) =>
        Except.ok { Riff := riff, Fmt := fmt, Data := data, buffer := s3 }

/-- The inner loop of `GetSample`: `binary.Read` of one byte at a time,
`bytesPerSample` times.  A single-byte read of an empty source is
`io.EOF`. -/
def readChannelBytes : Nat → List Nat → Except WavError (List Nat × List Nat)
  | 0, s => Except.ok ([], s)
  | _ + 1, [] => Except.error WavError.eof
  | n + 1, b :: s =>
    match readChannelBytes n s with
    | Except.error e => Except.error e
    | Except.ok (bs, rest) => Except.ok (b :: bs, rest)

/-- The outer loop of `GetSample`: one byte group per channel. -/
def readChannels : Nat → Nat → List Nat →
    Except WavError (List (List Nat) × List Nat)
  | 0, _, s => Except.ok ([], s)
  | n + 1, bps, s =>
    match readChannelBytes bps s with
    | Except.error e => Except.error e
    | Except.ok (cs, s1) =>
      match readChannels n bps s1 with
      | Except.error e => Except.error e
      | Except.ok (rest, s2) => Except.ok (cs :: rest, s2)

/-- `GetSample` of wav.go: decode `NumChannels` groups of
`BitsPerSample/8` bytes, append the frame to the reader's accumulated
sample list and return it with the advanced reader. -/
def GetSample (w : WavReader) : Except WavError (Sample × WavReader) :=
  match readChannels w.Fmt.NumChannels (w.Fmt.BitsPerSample / 8) w.buffer with
  | Except.error e => Except.error e
  | Except.ok (channels, rest) =>
    Except.ok (channels,
      { w with buffer := rest,
               Data := { w.Data with
                         Samples := w.Data.Samples ++ [channels] } })

/-- Little-endian bytes of a `uint32`, as produced by `binary.Write`. -/
def encLE32 (n : Nat) : List Nat :=
  [n % 256, n / 256 % 256, n / 65536 % 256, n / 16777216 % 256]

/-- Big-endian bytes of a `uint32`, as produced by `binary.Write`. -/
def encBE32 (n : Nat) : List Nat :=
  [n / 16777216 % 256, n / 65536 % 256, n / 256 % 256, n % 256]

/-- Little-endian bytes of a `uint16`, as produced by `binary.Write`. -/
def encLE16 (n : Nat) : List Nat :=
  [n % 256, n / 256 % 256]

/-- The 16 little-endian payload bytes of a fmt chunk, in the field order
of `fmtChunk` (this is `binary.Write(buffer, binary.LittleEndian,
w.Fmt.fmtChunk)` of `writeInitialData`). -/
def fmtPayloadBytes (f : FmtChunk) : List Nat :=
  encLE16 f.AudioFormat ++ encLE16 f.NumChannels ++ encLE32 f.SampleRate ++
    encLE32 f.ByteRate ++ encLE16 f.BlockAlign ++ encLE16 f.BitsPerSample

/-- A positioned write (`io.WriterAt.WriteAt`) on a fixed-capacity sink:
the write succeeds exactly when it fits, replacing the addressed bytes
(the semantics of the repository's `mockWriterAtCloser` test sink). -/
def writeAt (s bs : List Nat) (off : Nat) : Option (List Nat) :=
  if off + bs.length ≤ s.length then
    some (s.take off ++ bs ++ s.drop (off + bs.length))
  else none

/-- Read `n` bytes of a sink starting at offset `off`. -/
def readAt (s : List Nat) (off n : Nat) : List Nat :=
  (s.drop off).take n

/-- `WavWriter` of wav.go: header structs, format, accumulated data and
the sink. -/
structure WavWriter where
  Riff : RiffHeader
  Fmt : FmtChunk
  Data : DataChunk
  buffer : List Nat
deriving DecidableEq, Repr

/-- `writeInitialData` of wav.go: eight positioned writes — RIFF tag at 0,
RIFF size at 4, format at 8, fmt tag at 12, fmt size at 16, fmt payload
at 20, data tag at 36, data size at 40 — failing on the first write that
does not fit. -/
def writeInitialData (w : WavWriter) : Option (List Nat) :=
  (writeAt w.buffer (encBE32 w.Riff.Id) 0).bind (fun s =>
  (writeAt s (encLE32 w.Riff.Size) 4).bind (fun s =>
  (writeAt s (encBE32 w.Riff.Format) 8).bind (fun s =>
  (writeAt s (encBE32 w.Fmt.Id) 12).bind (fun s =>
  (writeAt s (encLE32 w.Fmt.Size) 16).bind (fun s =>
  (writeAt s (fmtPayloadBytes w.Fmt) 20).bind (fun s =>
  (writeAt s (encBE32 w.Data.Id) 36).bind (fun s =>
  writeAt s (encLE32 w.Data.Size) 40)))))))

/-- `NewWavWriter` of wav.go in the functional (per-writer state) model:
a `nil` fmt chunk selects the default; the writer starts from the initial
values of `defaultRiffHeader` and `defaultDataChunk` and immediately
performs `writeInitialData`, aborting construction on a write error. -/
def NewWavWriter (output : List Nat) (f : Option FmtChunk) :
    Except WavError WavWriter :=
  let fc := f.getD NewDefaultFmtChunk
  let w : WavWriter := { Riff := defaultRiffHeader, Fmt := fc,
                         Data := defaultDataChunk, buffer := output }
  match writeInitialData w with
  | none => Except.error WavError.writeErr
  | some s => Except.ok { w with buffer := s }

/-- `AddSample` of wav.go: validate the channel count, then the total
byte count (`(BitsPerSample/8)*NumChannels` in `uint16` arithmetic);
write the frame bytes at `DataOffset + Data.Size`; append the frame and
bump both size counters (`uint32` arithmetic); patch the RIFF size at
offset 4 and the data size at offset 40.  The first component of the
result is the writer state when the call returns (mutations made before
a failing write persist, as they do through the Go pointer receiver). -/
def AddSample (w : WavWriter) (sample : Sample) :
    WavWriter × Option WavError :=
  if sample.length ≠ w.Fmt.NumChannels then
    (w, some (WavError.channelErr w.Fmt.NumChannels sample.length))
  else
    let expectedBytes := w.Fmt.BitsPerSample / 8 * w.Fmt.NumChannels % 65536
    let counted := (sample.map List.length).sum
    if counted ≠ expectedBytes then
      (w, some (WavError.sampleErr expectedBytes counted))
    else
      match writeAt w.buffer sample.flatten (DataOffset + w.Data.Size) with
      | none => (w, some WavError.writeErr)
      | some s1 =>
        let w1 : WavWriter :=
          { w with
            buffer := s1,
            Riff := { w.Riff with
                      Size := (w.Riff.Size + counted) % 4294967296 },
            Data := { w.Data with
                      Samples := w.Data.Samples ++ [sample],
                      Size := (w.Data.Size + counted) % 4294967296 } }
        match writeAt w1.buffer (encLE32 w1.Riff.Size) RiffSizeOffset with
        | none => (w1, some WavError.writeErr)
        | some s2 =>
          match writeAt s2 (encLE32 w1.Data.Size) DataSizeOffset with
          | none => ({ w1 with buffer := s2 }, some WavError.writeErr)
          | some s3 => ({ w1 with buffer := s3 }, none)

/-- Iterate `AddSample`; `some` exactly when every call succeeded. -/
def addAll : WavWriter → List Sample → Option WavWriter
  | w, [] => some w
  | w, f :: fs =>
    match AddSample w f with
    | (w1, none) => addAll w1 fs
    | (_, some _) => none

/-- The mutable content of the package-level cells `defaultRiffHeader`
and `defaultDataChunk` that every writer created by the Go `NewWavWriter`
aliases (the chunk IDs and the RIFF format field are never written, so
only the sizes and the sample list are kept). -/
structure PkgState where
  riffSize : Nat
  dataSize : Nat
  dataSamples : List Sample
deriving DecidableEq, Repr

/-- The initial values of the package-level cells. -/
def initPkg : PkgState := { riffSize := 36, dataSize := 0, dataSamples := [] }

/-- A writer in the aliasing model: only the fmt chunk and the sink are
per-writer; the RIFF header and the data chunk live in the shared
`PkgState`. -/
structure GWriter where
  Fmt : FmtChunk
  buffer : List Nat
deriving DecidableEq, Repr

/-- The header a writer observes through its shared cells. -/
def viewWriter (pkg : PkgState) (fc : FmtChunk) (output : List Nat) :
    WavWriter :=
  { Riff := { Id := 1380533830, Size := pkg.riffSize, Format := 1463899717 },
    Fmt := fc,
    Data := { Id := 1684108385, Size := pkg.dataSize,
              Samples := pkg.dataSamples },
    buffer := output }

/-- `NewWavWriter` of wav.go in the aliasing model: the new writer stores
the package-level pointers, so its initial-data write emits whatever the
shared cells currently hold. -/
def NewWavWriterG (pkg : PkgState) (output : List Nat) (f : Option FmtChunk) :
    Except WavError GWriter :=
  let fc := f.getD NewDefaultFmtChunk
  match writeInitialData (viewWriter pkg fc output) with
  | none => Except.error WavError.writeErr
  | some s => Except.ok { Fmt := fc, buffer := s }

/-- `AddSample` of wav.go in the aliasing model: sizes and the sample
list are read from and written to the shared package cells. -/
def AddSampleG (pkg : PkgState) (g : GWriter) (sample : Sample) :
    PkgState × GWriter × Option WavError :=
  if sample.length ≠ g.Fmt.NumChannels then
    (pkg, g, some (WavError.channelErr g.Fmt.NumChannels sample.length))
  else
    let expectedBytes := g.Fmt.BitsPerSample / 8 * g.Fmt.NumChannels % 65536
    let counted := (sample.map List.length).sum
    if counted ≠ expectedBytes then
      (pkg, g, some (WavError.sampleErr expectedBytes counted))
    else
      match writeAt g.buffer sample.flatten (DataOffset + pkg.dataSize) with
      | none => (pkg, g, some WavError.writeErr)
      | some s1 =>
        let pkg1 : PkgState :=
          { riffSize := (pkg.riffSize + counted) % 4294967296,
            dataSize := (pkg.dataSize + counted) % 4294967296,
            dataSamples := pkg.dataSamples ++ [sample] }
        match writeAt s1 (encLE32 pkg1.riffSize) RiffSizeOffset with
        | none => (pkg1, { g with buffer := s1 }, some WavError.writeErr)
        | some s2 =>
          match writeAt s2 (encLE32 pkg1.dataSize) DataSizeOffset with
          | none => (pkg1, { g with buffer := s2 }, some WavError.writeErr)
          | some s3 => (pkg1, { g with buffer := s3 }, none)

/-- The bytes the writer places at sink offsets 12-36 for a fmt chunk:
big-endian tag, little-endian size, 16-byte little-endian payload
(writes four to six of `writeInitialData`). -/
def writeFmtBytes (f : FmtChunk) : List Nat :=
  encBE32 f.Id ++ encLE32 f.Size ++ fmtPayloadBytes f

/-- Boolean prefix test on character lists. -/
def hasPref : List Char → List Char → Bool
  | [], _ => true
  | _ :: _, [] => false
  | a :: as, b :: bs => a == b && hasPref as bs

/-- Boolean substring test: does `pat` occur contiguously in the second
list? -/
def hasSubB (pat : List Char) : List Char → Bool
  | [] => hasPref pat []
  | l@(_ :: bs) => hasPref pat l || hasSubB pat bs

/-- Propositional substring containment: `sub` occurs contiguously in
`l`. -/
def hasSub (sub l : List Char) : Prop :=
  ∃ pre suf : List Char, l = pre ++ sub ++ suf

/-- The canonical 44-byte prefix produced by a writer with the default
format descriptor: "RIFF", LE 36, "WAVE", "fmt ", LE 16, the LE payload
(audio format 1, 2 channels, rate 44100, byte rate 176400, block align 4,
16 bits), "data", LE 0. -/
def canonical44 : List Nat :=
  [82, 73, 70, 70, 36, 0, 0, 0, 87, 65, 86, 69,
   102, 109, 116, 32, 16, 0, 0, 0,
   1, 0, 2, 0, 68, 172, 0, 0, 16, 177, 2, 0, 4, 0, 16, 0,
   100, 97, 116, 97, 0, 0, 0, 0]

/-- A 52-byte all-zero sink: room for the 44-byte header and two 4-byte
frames. -/
def demoSink : List Nat := List.replicate 52 0

/-- The writer `NewWavWriter demoSink none` returns in the functional
model: default headers and the canonical 44 bytes followed by the
untouched zero bytes. -/
def demoW0 : WavWriter :=
  { Riff := defaultRiffHeader, Fmt := NewDefaultFmtChunk,
    Data := defaultDataChunk, buffer := canonical44 ++ List.replicate 8 0 }

/-- Two well-formed 4-byte frames for the default stereo 16-bit format. -/
def demoFrames : List Sample := [[[1, 2], [3, 4]], [[5, 6], [7, 8]]]

/-- The writer state after `demoW0` has absorbed `demoFrames`: sizes
44/8, both frames appended, frame bytes at offsets 44-52. -/
def demoWN : WavWriter :=
  { Riff := { Id := 1380533830, Size := 44, Format := 1463899717 },
    Fmt := NewDefaultFmtChunk,
    Data := { Id := 1684108385, Size := 8, Samples := demoFrames },
    buffer := [82, 73, 70, 70, 44, 0, 0, 0, 87, 65, 86, 69,
               102, 109, 116, 32, 16, 0, 0, 0,
               1, 0, 2, 0, 68, 172, 0, 0, 16, 177, 2, 0, 4, 0, 16, 0,
               100, 97, 116, 97, 8, 0, 0, 0, 1, 2, 3, 4, 5, 6, 7, 8] }

/-- A byte-exact container: valid RIFF/WAVE/fmt/data headers for a
2-channel 16-bit stream whose data chunk holds the two frames
`[123, -123]` and `[321, -321]` as little-endian `int16` pairs. -/
def demoStream : List Nat :=
  [82, 73, 70, 70] ++ encLE32 44 ++ [87, 65, 86, 69] ++
  [102, 109, 116, 32] ++ encLE32 16 ++ encLE16 1 ++ encLE16 2 ++
  encLE32 44100 ++ encLE32 176400 ++ encLE16 4 ++ encLE16 16 ++
  [100, 97, 116, 97] ++ encLE32 8 ++
  [123, 0, 133, 255, 65, 1, 191, 254]

/-- A byte-valid RIFF header block: "RIFF", a size, "WAVE". -/
def validRiff : List Nat :=
  encBE32 1380533830 ++ encLE32 0 ++ encBE32 1463899717

/-- A byte-valid fmt chunk block: "fmt ", size 16, an all-zero payload. -/
def validFmt : List Nat :=
  encBE32 1718449184 ++ encLE32 16 ++ List.replicate 16 0

/-- A concrete reader over the frame bytes `[1, 2, 3, 4]` with the
default stereo 16-bit format fields. -/
def readerA : WavReader :=
  { Riff := { Id := 1380533830, Size := 44, Format := 1463899717 },
    Fmt := NewDefaultFmtChunk,
    Data := { Id := 1684108385, Size := 8, Samples := [] },
    buffer := [1, 2, 3, 4] }

/-- A reader over the same frame bytes as `readerA` with the same channel
count and bit depth, but different RIFF size, fmt size, audio format,
data size and accumulated sample history. -/
def readerB : WavReader :=
  { Riff := { Id := 1380533830, Size := 999, Format := 1463899717 },
    Fmt := { NewDefaultFmtChunk with Size := 77, AudioFormat := 3 },
    Data := { Id := 1684108385, Size := 0, Samples := [[[9, 9], [8, 8]]] },
    buffer := [1, 2, 3, 4] }

/-- A successful positioned write means the write fitted and replaced the
addressed byte range. -/
theorem writeAt_some {s bs : List Nat} {off : Nat} {s2 : List Nat}
    (h : writeAt s bs off = some s2) :
    off + bs.length ≤ s.length ∧
      s2 = s.take off ++ bs ++ s.drop (off + bs.length) := by
  by_cases hc : off + bs.length ≤ s.length
  · rw [writeAt, if_pos hc] at h
    exact ⟨hc, (Option.some_inj.mp h).symm⟩
  · rw [writeAt, if_neg hc] at h
    cases h

/-- A positioned write preserves the sink capacity. -/
theorem writeAt_length {s bs : List Nat} {off : Nat} {s2 : List Nat}
    (h : writeAt s bs off = some s2) : s2.length = s.length := by
  obtain ⟨hle, rfl⟩ := writeAt_some h
  simp only [List.length_append, List.length_take, List.length_drop]
  omega

/-- Reading back the addressed range of a successful positioned write
returns the written bytes. -/
theorem readAt_writeAt_self {s bs : List Nat} {off : Nat} {s2 : List Nat}
    (h : writeAt s bs off = some s2) : readAt s2 off bs.length = bs := by
  obtain ⟨hle, rfl⟩ := writeAt_some h
  rw [readAt, List.append_assoc,
    List.drop_left' (by rw [List.length_take]; omega),
    List.take_left' rfl]

/-- A positioned write leaves every byte range that ends before the write
offset unchanged. -/
theorem readAt_writeAt_before {s bs : List Nat} {off : Nat} {s2 : List Nat}
    {r n : Nat} (h : writeAt s bs off = some s2) (hrn : r + n ≤ off) :
    readAt s2 r n = readAt s r n := by
  obtain ⟨hle, rfl⟩ := writeAt_some h
  have hP : ((s.take off).drop r).length = off - r := by
    simp only [List.length_drop, List.length_take]
    omega
  rw [readAt, List.append_assoc, List.drop_append_eq_append_drop,
    List.take_append_of_le_length (by omega),
    List.drop_take, List.take_take, Nat.min_eq_left (by omega), readAt]

/-- A positioned write leaves every byte range that starts at or after
the end of the written range unchanged. -/
theorem readAt_writeAt_after {s bs : List Nat} {off : Nat} {s2 : List Nat}
    {r n : Nat} (h : writeAt s bs off = some s2)
    (hr : off + bs.length ≤ r) :
    readAt s2 r n = readAt s r n := by
  obtain ⟨hle, rfl⟩ := writeAt_some h
  have hP : (s.take off ++ bs).length = off + bs.length := by
    simp only [List.length_append, List.length_take]
    omega
  rw [readAt, List.drop_append_eq_append_drop,
    List.drop_eq_nil_of_le (by omega), List.nil_append, List.drop_drop,
    hP]
  rw [show off + bs.length + (r - (off + bs.length)) = r from by omega,
    readAt]

/-- A successful write at the end of a known prefix extends the prefix
with the written bytes. -/
theorem writeAt_prefix_append (P Q : List Nat) {B s2 : List Nat}
    (h : writeAt (P ++ Q) B P.length = some s2) :
    B.length ≤ Q.length ∧ s2 = P ++ B ++ Q.drop B.length := by
  obtain ⟨hle, rfl⟩ := writeAt_some h
  rw [List.length_append] at hle
  refine ⟨by omega, ?_⟩
  rw [List.take_left, List.drop_append_eq_append_drop,
    List.drop_eq_nil_of_le (by omega), List.nil_append,
    show P.length + B.length - P.length = B.length from by omega]

/-- `encLE32` always produces four bytes. -/
theorem encLE32_length (n : Nat) : (encLE32 n).length = 4 := rfl

/-- `encBE32` always produces four bytes. -/
theorem encBE32_length (n : Nat) : (encBE32 n).length = 4 := rfl

/-- `encLE16` always produces two bytes. -/
theorem encLE16_length (n : Nat) : (encLE16 n).length = 2 := rfl

/-- The fmt payload always has sixteen bytes. -/
theorem fmtPayloadBytes_length (f : FmtChunk) :
    (fmtPayloadBytes f).length = 16 := by
  simp [fmtPayloadBytes, encLE16, encLE32]

/-- A successful `writeInitialData` requires 44 bytes of capacity and
lays out the eight header blocks back to back, leaving the rest of the
sink untouched. -/
theorem writeInitialData_eq_some {w : WavWriter} {s2 : List Nat}
    (h : writeInitialData w = some s2) :
    44 ≤ w.buffer.length ∧
      s2 = encBE32 w.Riff.Id ++ encLE32 w.Riff.Size ++
        encBE32 w.Riff.Format ++ encBE32 w.Fmt.Id ++ encLE32 w.Fmt.Size ++
        fmtPayloadBytes w.Fmt ++ encBE32 w.Data.Id ++ encLE32 w.Data.Size ++
        w.buffer.drop 44 := by
  rw [writeInitialData] at h
  obtain ⟨t1, h1, h⟩ := Option.bind_eq_some.mp h
  obtain ⟨t2, h2, h⟩ := Option.bind_eq_some.mp h
  obtain ⟨t3, h3, h⟩ := Option.bind_eq_some.mp h
  obtain ⟨t4, h4, h⟩ := Option.bind_eq_some.mp h
  obtain ⟨t5, h5, h⟩ := Option.bind_eq_some.mp h
  obtain ⟨t6, h6, h⟩ := Option.bind_eq_some.mp h
  obtain ⟨t7, h7, h8⟩ := Option.bind_eq_some.mp h
  obtain ⟨c1, e1⟩ := writeAt_prefix_append [] w.buffer h1
  rw [List.nil_append] at e1
  subst e1
  obtain ⟨c2, e2⟩ := writeAt_prefix_append
    (encBE32 w.Riff.Id) (w.buffer.drop 4)
    (by rw [show (encBE32 w.Riff.Id).length = 4 from rfl]; exact h2)
  rw [List.drop_drop] at e2
  subst e2
  obtain ⟨c3, e3⟩ := writeAt_prefix_append
    (encBE32 w.Riff.Id ++ encLE32 w.Riff.Size) (w.buffer.drop 8)
    (by rw [show (encBE32 w.Riff.Id ++ encLE32 w.Riff.Size).length = 8 from
          by simp [encBE32, encLE32]]; exact h3)
  rw [List.drop_drop] at e3
  subst e3
  obtain ⟨c4, e4⟩ := writeAt_prefix_append
    (encBE32 w.Riff.Id ++ encLE32 w.Riff.Size ++ encBE32 w.Riff.Format)
    (w.buffer.drop 12)
    (by rw [show (encBE32 w.Riff.Id ++ encLE32 w.Riff.Size ++
          encBE32 w.Riff.Format).length = 12 from by simp [encBE32, encLE32]]
        exact h4)
  rw [List.drop_drop] at e4
  subst e4
  obtain ⟨c5, e5⟩ := writeAt_prefix_append
    (encBE32 w.Riff.Id ++ encLE32 w.Riff.Size ++
      encBE32 w.Riff.Format ++ encBE32 w.Fmt.Id)
    (w.buffer.drop 16)
    (by rw [show (encBE32 w.Riff.Id ++ encLE32 w.Riff.Size ++
          encBE32 w.Riff.Format ++ encBE32 w.Fmt.Id).length = 16 from
          by simp [encBE32, encLE32]]
        exact h5)
  rw [List.drop_drop] at e5
  subst e5
  obtain ⟨c6, e6⟩ := writeAt_prefix_append
    (encBE32 w.Riff.Id ++ encLE32 w.Riff.Size ++
      encBE32 w.Riff.Format ++ encBE32 w.Fmt.Id ++ encLE32 w.Fmt.Size)
    (w.buffer.drop 20)
    (by rw [show (encBE32 w.Riff.Id ++ encLE32 w.Riff.Size ++
          encBE32 w.Riff.Format ++ encBE32 w.Fmt.Id ++
          encLE32 w.Fmt.Size).length = 20 from by simp [encBE32, encLE32]]
        exact h6)
  rw [List.drop_drop, fmtPayloadBytes_length] at e6
  subst e6
  obtain ⟨c7, e7⟩ := writeAt_prefix_append
    (encBE32 w.Riff.Id ++ encLE32 w.Riff.Size ++
      encBE32 w.Riff.Format ++ encBE32 w.Fmt.Id ++ encLE32 w.Fmt.Size ++
      fmtPayloadBytes w.Fmt)
    (w.buffer.drop 36)
    (by rw [show (encBE32 w.Riff.Id ++ encLE32 w.Riff.Size ++
          encBE32 w.Riff.Format ++ encBE32 w.Fmt.Id ++ encLE32 w.Fmt.Size ++
          fmtPayloadBytes w.Fmt).length = 36 from
          by simp [encBE32, encLE32, fmtPayloadBytes_length]]
        exact h7)
  rw [List.drop_drop] at e7
  subst e7
  obtain ⟨c8, e8⟩ := writeAt_prefix_append
    (encBE32 w.Riff.Id ++ encLE32 w.Riff.Size ++
      encBE32 w.Riff.Format ++ encBE32 w.Fmt.Id ++ encLE32 w.Fmt.Size ++
      fmtPayloadBytes w.Fmt ++ encBE32 w.Data.Id)
    (w.buffer.drop 40)
    (by rw [show (encBE32 w.Riff.Id ++ encLE32 w.Riff.Size ++
          encBE32 w.Riff.Format ++ encBE32 w.Fmt.Id ++ encLE32 w.Fmt.Size ++
          fmtPayloadBytes w.Fmt ++ encBE32 w.Data.Id).length = 40 from
          by simp [encBE32, encLE32, fmtPayloadBytes_length]]
        exact h8)
  rw [List.drop_drop] at e8
  rw [List.length_drop, encLE32_length] at c8
  exact ⟨by omega, e8⟩

/-- After a successful `writeInitialData` the RIFF-size field at offset 4
and the data-size field at offset 40 hold the little-endian sizes of the
writer, and the sink capacity is unchanged (and at least 44). -/
theorem writeInitialData_fields {w : WavWriter} {s2 : List Nat}
    (h : writeInitialData w = some s2) :
    readAt s2 4 4 = encLE32 w.Riff.Size ∧
      readAt s2 40 4 = encLE32 w.Data.Size ∧
      s2.length = w.buffer.length ∧ 44 ≤ w.buffer.length := by
  have hlen := (writeInitialData_eq_some h).1
  rw [writeInitialData] at h
  obtain ⟨t1, h1, h⟩ := Option.bind_eq_some.mp h
  obtain ⟨t2, h2, h⟩ := Option.bind_eq_some.mp h
  obtain ⟨t3, h3, h⟩ := Option.bind_eq_some.mp h
  obtain ⟨t4, h4, h⟩ := Option.bind_eq_some.mp h
  obtain ⟨t5, h5, h⟩ := Option.bind_eq_some.mp h
  obtain ⟨t6, h6, h⟩ := Option.bind_eq_some.mp h
  obtain ⟨t7, h7, h8⟩ := Option.bind_eq_some.mp h
  have hr40 : readAt s2 40 4 = encLE32 w.Data.Size := by
    have := readAt_writeAt_self h8
    rwa [encLE32_length] at this
  have hr4 : readAt s2 4 4 = encLE32 w.Riff.Size := by
    rw [readAt_writeAt_before h8 (by omega),
      readAt_writeAt_before h7 (by omega),
      readAt_writeAt_before h6 (by omega),
      readAt_writeAt_before h5 (by omega),
      readAt_writeAt_before h4 (by omega),
      readAt_writeAt_before h3 (by omega)]
    have := readAt_writeAt_self h2
    rwa [encLE32_length] at this
  refine ⟨hr4, hr40, ?_, hlen⟩
  rw [writeAt_length h8, writeAt_length h7, writeAt_length h6,
    writeAt_length h5, writeAt_length h4, writeAt_length h3,
    writeAt_length h2, writeAt_length h1]

/-- A successfully constructed writer carries the default RIFF header and
data chunk, the requested (or default) fmt chunk, and a sink produced by
`writeInitialData` over the given output. -/
theorem NewWavWriter_eq_ok {output : List Nat} {f : Option FmtChunk}
    {w : WavWriter} (h : NewWavWriter output f = Except.ok w) :
    w.Riff = defaultRiffHeader ∧ w.Fmt = f.getD NewDefaultFmtChunk ∧
      w.Data = defaultDataChunk ∧
      writeInitialData
        { Riff := defaultRiffHeader, Fmt := f.getD NewDefaultFmtChunk,
          Data := defaultDataChunk, buffer := output } = some w.buffer := by
  rw [NewWavWriter] at h
  split at h
  · cases h
  · cases h
    exact ⟨rfl, rfl, rfl, by assumption⟩

/-- C5 (amended): when the package-level default header cells hold their
initial values — as in the functional model — a successful
`NewWavWriter` with the default format descriptor leaves the sink's
first 44 bytes equal to the canonical layout ("RIFF", LE 36, "WAVE",
"fmt ", LE 16, the default LE payload, "data", LE 0), and when the
44-byte layout does not fit the sink, construction fails with the write
error and returns no writer. -/
theorem initialHeaderBytesCanonical (output : List Nat) :
    (∀ w : WavWriter, NewWavWriter output Option.none = Except.ok w →
      readAt w.buffer 0 44 = canonical44) ∧
    (output.length < 44 →
      NewWavWriter output Option.none = Except.error WavError.writeErr) := by
  constructor
  · intro w hw
    obtain ⟨hriff, hfmt, hdata, hwid⟩ := NewWavWriter_eq_ok hw
    obtain ⟨hlen, hbuf⟩ := writeInitialData_eq_some hwid
    rw [hbuf]
    simp only [defaultRiffHeader, defaultDataChunk, NewDefaultFmtChunk,
      Option.getD]
    rw [readAt, List.drop_zero]
    exact (List.take_left' (by decide)).trans (by decide)
  · intro hlen
    rw [NewWavWriter]
    cases hw : writeInitialData
        { Riff := defaultRiffHeader,
          Fmt := (Option.none).getD NewDefaultFmtChunk,
          Data := defaultDataChunk, buffer := output } with
    | none => rfl
    | some s =>
      exact absurd (writeInitialData_eq_some hw).1 (by simpa using hlen)

/-- C5 witness: on a 52-byte zero sink the default construction succeeds
with the canonical header bytes, and on a 10-byte sink it fails with the
write error. -/
theorem initialHeaderBytesCanonicalWitness :
    NewWavWriter demoSink Option.none = Except.ok demoW0 ∧
      readAt demoW0.buffer 0 44 = canonical44 ∧
      (List.replicate 10 0 : List Nat).length < 44 ∧
      NewWavWriter (List.replicate 10 0) Option.none =
        Except.error WavError.writeErr :=
  ⟨by decide, (initialHeaderBytesCanonical demoSink).1 demoW0 (by decide),
    by decide, (initialHeaderBytesCanonical (List.replicate 10 0)).2
      (by decide)⟩

/-- C5 counterexample: in the aliasing model of the Go source, a second
writer constructed after another writer appended a frame emits 40, not
36, in the RIFF-size field, so its first 44 sink bytes differ from the
canonical layout. -/
theorem initialHeaderBytesCorruptedForSecondWriter :
    ((NewWavWriterG initPkg demoSink Option.none).bind (fun w1 =>
      (NewWavWriterG (AddSampleG initPkg w1 [[1, 2], [3, 4]]).1 demoSink
          Option.none).map (fun w2 => readAt w2.buffer 0 44))) =
      Except.ok
        [82, 73, 70, 70, 40, 0, 0, 0, 87, 65, 86, 69,
         102, 109, 116, 32, 16, 0, 0, 0,
         1, 0, 2, 0, 68, 172, 0, 0, 16, 177, 2, 0, 4, 0, 16, 0,
         100, 97, 116, 97, 4, 0, 0, 0] ∧
    ([82, 73, 70, 70, 40, 0, 0, 0, 87, 65, 86, 69,
      102, 109, 116, 32, 16, 0, 0, 0,
      1, 0, 2, 0, 68, 172, 0, 0, 16, 177, 2, 0, 4, 0, 16, 0,
      100, 97, 116, 97, 4, 0, 0, 0] : List Nat) ≠ canonical44 := by
  exact ⟨by decide, by decide⟩

/-- C1: the Go `NewWavWriter` stores the package-level pointers
`defaultRiffHeader` and `defaultDataChunk` in every writer, so writers
share those header cells.  Mutating one writer (a successful `AddSample`)
changes the shared cells from size 36 / no samples to size 40 / one
sample, and a writer constructed afterwards emits the mutated size 40 in
its own sink's RIFF-size field — the claim that writers own their header
structs privately fails on the code. -/
theorem sharedDefaultHeaderMutatedAcrossWriters :
    initPkg.riffSize = 36 ∧ initPkg.dataSamples = [] ∧
    ((NewWavWriterG initPkg demoSink Option.none).map (fun w1 =>
      ((AddSampleG initPkg w1 [[1, 2], [3, 4]]).2.2,
       (AddSampleG initPkg w1 [[1, 2], [3, 4]]).1.riffSize,
       (AddSampleG initPkg w1 [[1, 2], [3, 4]]).1.dataSize,
       (AddSampleG initPkg w1 [[1, 2], [3, 4]]).1.dataSamples))) =
      Except.ok (none, 40, 4, [[[1, 2], [3, 4]]]) ∧
    ((NewWavWriterG initPkg demoSink Option.none).bind (fun w1 =>
      (NewWavWriterG (AddSampleG initPkg w1 [[1, 2], [3, 4]]).1 demoSink
          Option.none).map (fun w2 => readAt w2.buffer 4 4))) =
      Except.ok [40, 0, 0, 0] := by
  exact ⟨by decide, by decide, by decide, by decide⟩

/-- C2 counterexample: in the aliasing model, a second writer that
performs a single successful 4-byte `AddSample` ends with 44 in the
RIFF-size field and 8 in the data-size field, not the 36 + 1*4 and 1*4
the claim demands of every writer. -/
theorem riffSizeBookkeepingFailsForSecondWriter :
    ((NewWavWriterG initPkg demoSink Option.none).bind (fun w1 =>
      (NewWavWriterG (AddSampleG initPkg w1 [[1, 2], [3, 4]]).1 demoSink
          Option.none).bind (fun w2 =>
        Except.ok
          ((AddSampleG (AddSampleG initPkg w1 [[1, 2], [3, 4]]).1 w2
              [[1, 2], [3, 4]]).2.2,
           readAt (AddSampleG (AddSampleG initPkg w1 [[1, 2], [3, 4]]).1 w2
              [[1, 2], [3, 4]]).2.1.buffer 4 4,
           readAt (AddSampleG (AddSampleG initPkg w1 [[1, 2], [3, 4]]).1 w2
              [[1, 2], [3, 4]]).2.1.buffer 40 4)))) =
      Except.ok (none, [44, 0, 0, 0], [8, 0, 0, 0]) ∧
    ([44, 0, 0, 0] : List Nat) ≠ encLE32 (36 + 1 * 4) ∧
    ([8, 0, 0, 0] : List Nat) ≠ encLE32 (1 * 4) := by
  exact ⟨by decide, by decide, by decide⟩

/-- C3 counterexample: on the 3-byte source "RIF" the reader fails with
the bare propagated `unexpected EOF`; its message mentions neither
"FourCC" nor "tag". -/
theorem shortRiffSourceErrorLacksFourCC :
    NewWavReader [82, 73, 70] = Except.error WavError.unexpectedEOF ∧
    hasSubB "FourCC".toList (errMessage WavError.unexpectedEOF).toList
      = false ∧
    hasSubB "tag".toList (errMessage WavError.unexpectedEOF).toList
      = false ∧
    hasSubB "Tag".toList (errMessage WavError.unexpectedEOF).toList
      = false := by
  exact ⟨by decide, by decide, by decide, by decide⟩

/-- C3 (amended): on the 3-byte source "RIF" (bytes 82, 73, 70),
`NewWavReader` returns no reader and fails with the end-of-stream error
(`io.ErrUnexpectedEOF`) propagated verbatim from the short tag read; the
message is just "unexpected EOF". -/
theorem shortRiffSourceFailsWithUnexpectedEOF :
    NewWavReader [82, 73, 70] = Except.error WavError.unexpectedEOF ∧
    errMessage WavError.unexpectedEOF = "unexpected EOF" := by
  exact ⟨by decide, by decide⟩

/-- C4 counterexample: a failing WAVE format field produces
"invalid format of WAVX; should be ..." which does not contain the
"chunk ID" wording the claimed uniform message template requires (which
the RIFF case does contain). -/
theorem waveTagErrorMessageNotChunkIdForm :
    NewWavReader ([82, 73, 70, 70] ++ encLE32 0 ++ [87, 65, 86, 88]) =
      Except.error (WavError.waveErr "WAVX") ∧
    hasSubB "chunk ID".toList
      (errMessage (WavError.waveErr "WAVX")).toList = false ∧
    hasSubB "chunk ID".toList
      (errMessage (WavError.riffErr "RIFD")).toList = true := by
  exact ⟨by decide, by decide, by decide⟩

/-- C7: on a byte-exact container for a 2-channel 16-bit stream with two
4-byte frames [123, -123] and [321, -321], the first two `GetSample`
calls return those frames in order (each a 2-element list of 2-byte
little-endian groups, appended to the reader's sample list) and the
third call returns the end-of-stream error `io.EOF`, a constructor
distinct from every other error kind. -/
theorem getSampleTwoFramesThenEOF :
    ((NewWavReader demoStream).bind (fun r0 =>
      (GetSample r0).map Prod.fst)) =
      Except.ok [[123, 0], [133, 255]] ∧
    ((NewWavReader demoStream).bind (fun r0 =>
      (GetSample r0).bind (fun p1 => (GetSample p1.2).map Prod.fst))) =
      Except.ok [[65, 1], [191, 254]] ∧
    ((NewWavReader demoStream).bind (fun r0 =>
      (GetSample r0).bind (fun p1 =>
        (GetSample p1.2).bind (fun p2 => GetSample p2.2)))) =
      Except.error WavError.eof ∧
    ((NewWavReader demoStream).bind (fun r0 =>
      (GetSample r0).bind (fun p1 =>
        (GetSample p1.2).map (fun p2 => p2.2.Data.Samples)))) =
      Except.ok [[[123, 0], [133, 255]], [[65, 1], [191, 254]]] ∧
    WavError.eof ≠ WavError.unexpectedEOF := by
  exact ⟨by decide, by decide, by decide, by decide, by decide⟩

/-- A successful `AddSample` call passed both validations, performed its
three positioned writes, and produced the expected post-state. -/
theorem AddSample_eq_none {w w2 : WavWriter} {f : Sample}
    (h : AddSample w f = (w2, none)) :
    ∃ s1 s2 s3 : List Nat,
      f.length = w.Fmt.NumChannels ∧
      (f.map List.length).sum =
        w.Fmt.BitsPerSample / 8 * w.Fmt.NumChannels % 65536 ∧
      writeAt w.buffer f.flatten (44 + w.Data.Size) = some s1 ∧
      writeAt s1
        (encLE32 ((w.Riff.Size + (f.map List.length).sum) % 4294967296)) 4 =
        some s2 ∧
      writeAt s2
        (encLE32 ((w.Data.Size + (f.map List.length).sum) % 4294967296)) 40 =
        some s3 ∧
      w2 = { Riff := { Id := w.Riff.Id,
                       Size := (w.Riff.Size + (f.map List.length).sum) %
                         4294967296,
                       Format := w.Riff.Format },
             Fmt := w.Fmt,
             Data := { Id := w.Data.Id,
                       Size := (w.Data.Size + (f.map List.length).sum) %
                         4294967296,
                       Samples := w.Data.Samples ++ [f] },
             buffer := s3 } := by
  rw [AddSample] at h
  simp only [DataOffset, RiffSizeOffset, DataSizeOffset] at h
  split at h
  · simp at h
  rename_i hch
  rw [not_not] at hch
  split at h
  · simp at h
  rename_i hbytes
  rw [not_not] at hbytes
  split at h
  · simp at h
  · rename_i s1 hw1
    split at h
    · simp at h
    · rename_i s2 hw2
      split at h
      · simp at h
      · rename_i s3 hw3
        exact ⟨s1, s2, s3, hch, hbytes, hw1, hw2, hw3,
          (congrArg Prod.fst h).symm⟩

/-- Size-bookkeeping invariant of `addAll`: starting from a writer whose
sizes are 36 + n*k and n*k and whose sink fields mirror them, a run of
successful `AddSample` calls (each necessarily contributing k bytes, the
byte count forced by the validations) ends with sizes 36 + (n+N)*k and
(n+N)*k mirrored in the sink fields. -/
theorem addAll_sizes (fmt0 : FmtChunk) (k : Nat)
    (hk : k = fmt0.BitsPerSample / 8 * fmt0.NumChannels % 65536) :
    ∀ (frames : List Sample) (w wN : WavWriter) (n : Nat),
      w.Fmt = fmt0 →
      w.Riff.Size = 36 + n * k →
      w.Data.Size = n * k →
      readAt w.buffer 4 4 = encLE32 w.Riff.Size →
      readAt w.buffer 40 4 = encLE32 w.Data.Size →
      36 + (n + frames.length) * k < 4294967296 →
      addAll w frames = some wN →
      wN.Riff.Size = 36 + (n + frames.length) * k ∧
        wN.Data.Size = (n + frames.length) * k ∧
        readAt wN.buffer 4 4 = encLE32 wN.Riff.Size ∧
        readAt wN.buffer 40 4 = encLE32 wN.Data.Size := by
  intro frames
  induction frames with
  | nil =>
    intro w wN n hf hrs hds hr4 hr40 hbound hadd
    rw [addAll] at hadd
    cases hadd
    simp only [List.length_nil, Nat.add_zero]
    exact ⟨hrs, hds, hr4, hr40⟩
  | cons f fs ih =>
    intro w wN n hf hrs hds hr4 hr40 hbound hadd
    simp only [List.length_cons] at hbound
    rw [addAll] at hadd
    rcases hAS : AddSample w f with ⟨w1, err⟩
    rw [hAS] at hadd
    cases err with
    | some e => cases hadd
    | none =>
      obtain ⟨s1, s2, s3, hch, hbytes, hw1, hw2, hw3, hw1eq⟩ :=
        AddSample_eq_none hAS
      have hcnt : (f.map List.length).sum = k := by rw [hbytes, hf, hk]
      have hksucc : 36 + (n + 1) * k < 4294967296 := by
        have hmono : (n + 1) * k ≤ (n + (fs.length + 1)) * k :=
          Nat.mul_le_mul_right _ (by omega)
        omega
      have hnewR : (w.Riff.Size + (f.map List.length).sum) % 4294967296 =
          36 + (n + 1) * k := by
        rw [hcnt, hrs, show 36 + n * k + k = 36 + (n + 1) * k from by ring,
          Nat.mod_eq_of_lt hksucc]
      have hnewD : (w.Data.Size + (f.map List.length).sum) % 4294967296 =
          (n + 1) * k := by
        rw [hcnt, hds, show n * k + k = (n + 1) * k from by ring,
          Nat.mod_eq_of_lt (by omega)]
      have hfmt1 : w1.Fmt = fmt0 := by rw [hw1eq]; exact hf
      have hrs1 : w1.Riff.Size = 36 + (n + 1) * k := by
        rw [hw1eq]; exact hnewR
      have hds1 : w1.Data.Size = (n + 1) * k := by
        rw [hw1eq]; exact hnewD
      have hr41 : readAt w1.buffer 4 4 = encLE32 w1.Riff.Size := by
        rw [hw1eq]
        show readAt s3 4 4 = _
        rw [readAt_writeAt_before hw3 (by omega)]
        have hself := readAt_writeAt_self hw2
        rw [encLE32_length] at hself
        exact hself
      have hr401 : readAt w1.buffer 40 4 = encLE32 w1.Data.Size := by
        rw [hw1eq]
        show readAt s3 40 4 = _
        have hself := readAt_writeAt_self hw3
        rw [encLE32_length] at hself
        exact hself
      have hb1 : 36 + (n + 1 + fs.length) * k < 4294967296 := by
        rw [show n + 1 + fs.length = n + (fs.length + 1) from by omega]
        exact hbound
      obtain ⟨ha, hb, hc, hd⟩ :=
        ih w1 wN (n + 1) hfmt1 hrs1 hds1 hr41 hr401 hb1 hadd
      have hlen : n + (f :: fs).length = n + 1 + fs.length := by
        simp only [List.length_cons]; omega
      refine ⟨?_, ?_, hc, hd⟩
      · rw [hlen]; exact ha
      · rw [hlen]; exact hb

/-- C2 (amended): for a writer constructed while the package-level
default header cells hold their initial values (the functional model:
RIFF size 36, data size 0), after N successful `AddSample` calls — each
of which the validations force to contribute exactly
k = numChannels * bitsPerSample/8 bytes — the little-endian RIFF-size
field at sink offset 4 equals 36 + N*k and the data-size field at offset
40 equals N*k, provided 36 + N*k fits in 32 bits. -/
theorem riffAndDataSizeFieldsAfterAddSamples
    (output : List Nat) (fopt : Option FmtChunk) (w0 wN : WavWriter)
    (frames : List Sample) (k : Nat)
    (hconstr : NewWavWriter output fopt = Except.ok w0)
    (hkdef : k = w0.Fmt.NumChannels * (w0.Fmt.BitsPerSample / 8))
    (hksmall : k < 65536)
    (hadd : addAll w0 frames = some wN)
    (hbound : 36 + frames.length * k < 4294967296) :
    readAt wN.buffer 4 4 = encLE32 (36 + frames.length * k) ∧
      readAt wN.buffer 40 4 = encLE32 (frames.length * k) := by
  obtain ⟨hriff, hfmt, hdata, hwid⟩ := NewWavWriter_eq_ok hconstr
  obtain ⟨hr4, hr40, hslen, hblen⟩ := writeInitialData_fields hwid
  have h36 : w0.Riff.Size = 36 := by rw [hriff]; rfl
  have h0 : w0.Data.Size = 0 := by rw [hdata]; rfl
  have hr4b : readAt w0.buffer 4 4 = encLE32 w0.Riff.Size := by
    rw [h36]; exact hr4
  have hr40b : readAt w0.buffer 40 4 = encLE32 w0.Data.Size := by
    rw [h0]; exact hr40
  have hk0 : k = w0.Fmt.BitsPerSample / 8 * w0.Fmt.NumChannels % 65536 := by
    rw [Nat.mul_comm, ← hkdef, Nat.mod_eq_of_lt hksmall]
  obtain ⟨ha, hb, hc, hd⟩ := addAll_sizes w0.Fmt k hk0 frames w0 wN 0
    rfl (by rw [h36]; omega) (by rw [h0]; omega) hr4b hr40b
    (by simpa using hbound) hadd
  rw [hc, hd, ha, hb]
  constructor <;> simp

/-- C2 witness: on a 52-byte sink, two 4-byte frames leave 44 at offset 4
and 8 at offset 40. -/
theorem riffAndDataSizeFieldsAfterAddSamplesWitness :
    NewWavWriter demoSink Option.none = Except.ok demoW0 ∧
    (4 : Nat) = demoW0.Fmt.NumChannels * (demoW0.Fmt.BitsPerSample / 8) ∧
    (4 : Nat) < 65536 ∧
    addAll demoW0 demoFrames = some demoWN ∧
    36 + demoFrames.length * 4 < 4294967296 ∧
    (readAt demoWN.buffer 4 4 = encLE32 (36 + demoFrames.length * 4) ∧
      readAt demoWN.buffer 40 4 = encLE32 (demoFrames.length * 4)) :=
  ⟨by decide, by decide, by decide, by decide, by decide,
    riffAndDataSizeFieldsAfterAddSamples demoSink Option.none demoW0 demoWN
      demoFrames 4 (by decide) (by decide) (by decide) (by decide)
      (by decide)⟩

/-- C10: `AddSample` validates only the frame's element count and total
byte count, never the per-channel shape: any frame with `NumChannels`
groups whose lengths merely sum to numChannels * bitsPerSample/8 is
accepted (no error), its bytes are written verbatim at sink offset
44 + current data size, and it is appended to the writer's sample list —
capacity permitting. -/
theorem addSampleChecksOnlyTotalByteCount (w : WavWriter) (f : Sample)
    (hch : f.length = w.Fmt.NumChannels)
    (hsum : (f.map List.length).sum =
      w.Fmt.NumChannels * (w.Fmt.BitsPerSample / 8))
    (hsmall : w.Fmt.NumChannels * (w.Fmt.BitsPerSample / 8) < 65536)
    (hcap : 44 + w.Data.Size + (f.map List.length).sum ≤ w.buffer.length) :
    (AddSample w f).2 = none ∧
    readAt (AddSample w f).1.buffer (44 + w.Data.Size)
      ((f.map List.length).sum) = f.flatten ∧
    (AddSample w f).1.Data.Samples = w.Data.Samples ++ [f] := by
  have hflat : f.flatten.length = (f.map List.length).sum :=
    List.length_flatten f
  have hsmall2 : w.Fmt.BitsPerSample / 8 * w.Fmt.NumChannels < 65536 := by
    rwa [Nat.mul_comm] at hsmall
  have hexp : (f.map List.length).sum =
      w.Fmt.BitsPerSample / 8 * w.Fmt.NumChannels % 65536 := by
    rw [Nat.mod_eq_of_lt hsmall2, hsum, Nat.mul_comm]
  obtain ⟨s1v, hw1⟩ : ∃ t,
      writeAt w.buffer f.flatten (44 + w.Data.Size) = some t := by
    rw [writeAt, if_pos (by rw [hflat]; omega)]
    exact ⟨_, rfl⟩
  have hlen1 : s1v.length = w.buffer.length := writeAt_length hw1
  obtain ⟨s2v, hw2⟩ : ∃ t, writeAt s1v
      (encLE32 ((w.Riff.Size + (f.map List.length).sum) % 4294967296)) 4 =
      some t := by
    rw [writeAt, if_pos (by rw [encLE32_length, hlen1]; omega)]
    exact ⟨_, rfl⟩
  have hlen2 : s2v.length = s1v.length := writeAt_length hw2
  obtain ⟨s3v, hw3⟩ : ∃ t, writeAt s2v
      (encLE32 ((w.Data.Size + (f.map List.length).sum) % 4294967296)) 40 =
      some t := by
    rw [writeAt, if_pos (by rw [encLE32_length, hlen2, hlen1]; omega)]
    exact ⟨_, rfl⟩
  have hres : AddSample w f =
      ({ Riff := { Id := w.Riff.Id,
                   Size := (w.Riff.Size + (f.map List.length).sum) %
                     4294967296,
                   Format := w.Riff.Format },
         Fmt := w.Fmt,
         Data := { Id := w.Data.Id,
                   Size := (w.Data.Size + (f.map List.length).sum) %
                     4294967296,
                   Samples := w.Data.Samples ++ [f] },
         buffer := s3v }, none) := by
    simp only [AddSample, DataOffset, RiffSizeOffset, DataSizeOffset]
    rw [if_neg (show ¬(f.length ≠ w.Fmt.NumChannels) from by simp [hch])]
    rw [if_neg (show ¬((f.map List.length).sum ≠
      w.Fmt.BitsPerSample / 8 * w.Fmt.NumChannels % 65536) from by
        simp [hexp])]
    rw [hw1]
    simp only [hw2, hw3]
  rw [hres]
  refine ⟨rfl, ?_, rfl⟩
  show readAt s3v (44 + w.Data.Size) ((f.map List.length).sum) = f.flatten
  rw [readAt_writeAt_after hw3 (by rw [encLE32_length]; omega),
    readAt_writeAt_after hw2 (by rw [encLE32_length]; omega)]
  have hself := readAt_writeAt_self hw1
  rw [hflat] at hself
  exact hself

/-- C10 witness: the default stereo 16-bit writer accepts the malformed
frame with channel groups of 1 and 3 bytes and writes 5, 6, 7, 8 at
offsets 44-48. -/
theorem addSampleChecksOnlyTotalByteCountWitness :
    ([[5], [6, 7, 8]] : Sample).length = demoW0.Fmt.NumChannels ∧
    (([[5], [6, 7, 8]] : Sample).map List.length).sum =
      demoW0.Fmt.NumChannels * (demoW0.Fmt.BitsPerSample / 8) ∧
    demoW0.Fmt.NumChannels * (demoW0.Fmt.BitsPerSample / 8) < 65536 ∧
    44 + demoW0.Data.Size +
      (([[5], [6, 7, 8]] : Sample).map List.length).sum ≤
      demoW0.buffer.length ∧
    ((AddSample demoW0 [[5], [6, 7, 8]]).2 = none ∧
      readAt (AddSample demoW0 [[5], [6, 7, 8]]).1.buffer
        (44 + demoW0.Data.Size)
        ((([[5], [6, 7, 8]] : Sample).map List.length).sum) =
        ([[5], [6, 7, 8]] : Sample).flatten ∧
      (AddSample demoW0 [[5], [6, 7, 8]]).1.Data.Samples =
        demoW0.Data.Samples ++ [[[5], [6, 7, 8]]]) :=
  ⟨by decide, by decide, by decide, by decide,
    addSampleChecksOnlyTotalByteCount demoW0 [[5], [6, 7, 8]]
      (by decide) (by decide) (by decide) (by decide)⟩

/-- `String.toList` distributes over append. -/
theorem toList_append (a b : String) :
    (a ++ b).toList = a.toList ++ b.toList := rfl

/-- C6: a frame whose element count differs from `NumChannels` makes
`AddSample` return the channel-count error carrying the expected and
found counts, with the writer (sink included) unchanged — regardless of
the frame's byte count, because the channel check runs first; the error
text contains both counts. -/
theorem addSampleChannelMismatch (w : WavWriter) (f : Sample)
    (h : f.length ≠ w.Fmt.NumChannels) :
    AddSample w f =
      (w, some (WavError.channelErr w.Fmt.NumChannels f.length)) ∧
    hasSub (toString w.Fmt.NumChannels).toList
      (errMessage (WavError.channelErr w.Fmt.NumChannels f.length)).toList ∧
    hasSub (toString f.length).toList
      (errMessage (WavError.channelErr w.Fmt.NumChannels f.length)).toList := by
  refine ⟨?_, ?_, ?_⟩
  · rw [AddSample, if_pos h]
  · refine ⟨"expected ".toList,
      (" channels; found " ++ toString f.length ++ ".").toList, ?_⟩
    simp only [errMessage, toList_append, List.append_assoc]
  · refine ⟨("expected " ++ toString w.Fmt.NumChannels ++
      " channels; found ").toList, ".".toList, ?_⟩
    simp only [errMessage, toList_append, List.append_assoc]

/-- C6 witness: the default stereo writer rejects the frame [[1]] (wrong
in channel count and byte count alike) with the channel error for 2
expected, 1 found. -/
theorem addSampleChannelMismatchWitness :
    ([[1]] : Sample).length ≠ demoW0.Fmt.NumChannels ∧
    (AddSample demoW0 [[1]] =
      (demoW0, some (WavError.channelErr demoW0.Fmt.NumChannels
        ([[1]] : Sample).length)) ∧
    hasSub (toString demoW0.Fmt.NumChannels).toList
      (errMessage (WavError.channelErr demoW0.Fmt.NumChannels
        ([[1]] : Sample).length)).toList ∧
    hasSub (toString ([[1]] : Sample).length).toList
      (errMessage (WavError.channelErr demoW0.Fmt.NumChannels
        ([[1]] : Sample).length)).toList) :=
  ⟨by decide, addSampleChannelMismatch demoW0 [[1]] (by decide)⟩

/-- C9: the frame a `GetSample` call returns is a function of the format
fields it consults (channel count and bit depth) and the byte stream
alone: readers agreeing on those — whatever their RIFF sizes, other fmt
fields, or accumulated sample history — produce identical results,
errors included. -/
theorem getSampleDeterministic (w1 w2 : WavReader)
    (hch : w1.Fmt.NumChannels = w2.Fmt.NumChannels)
    (hbits : w1.Fmt.BitsPerSample = w2.Fmt.BitsPerSample)
    (hbuf : w1.buffer = w2.buffer) :
    Except.map Prod.fst (GetSample w1) =
      Except.map Prod.fst (GetSample w2) := by
  rw [GetSample, GetSample, hch, hbits, hbuf]
  cases hx : readChannels w2.Fmt.NumChannels (w2.Fmt.BitsPerSample / 8)
      w2.buffer with
  | error e => rfl
  | ok p =>
    obtain ⟨c, r⟩ := p
    rfl

/-- C9 witness: two readers differing in RIFF size, fmt size, audio
format and sample history but agreeing on channel count, bit depth and
stream decode the same frame. -/
theorem getSampleDeterministicWitness :
    readerA.Fmt.NumChannels = readerB.Fmt.NumChannels ∧
    readerA.Fmt.BitsPerSample = readerB.Fmt.BitsPerSample ∧
    readerA.buffer = readerB.buffer ∧
    Except.map Prod.fst (GetSample readerA) =
      Except.map Prod.fst (GetSample readerB) :=
  ⟨by decide, by decide, by decide,
    getSampleDeterministic readerA readerB (by decide) (by decide)
      (by decide)⟩

/-- Reading back a big-endian encoded `uint32` recovers the value and
leaves the rest of the stream. -/
theorem readU32BE_encBE32 (n : Nat) (hn : n < 4294967296)
    (rest : List Nat) : readU32BE (encBE32 n ++ rest) =
      Except.ok (n, rest) := by
  simp only [encBE32, List.cons_append, List.nil_append, readU32BE,
    Except.ok.injEq, Prod.mk.injEq]
  exact ⟨by omega, trivial⟩

/-- Reading back a little-endian encoded `uint32` recovers the value. -/
theorem readU32LE_encLE32 (n : Nat) (hn : n < 4294967296)
    (rest : List Nat) : readU32LE (encLE32 n ++ rest) =
      Except.ok (n, rest) := by
  simp only [encLE32, List.cons_append, List.nil_append, readU32LE,
    Except.ok.injEq, Prod.mk.injEq]
  exact ⟨by omega, trivial⟩

/-- Reading back an encoded sub-chunk header recovers the ID and size. -/
theorem readSubChunk_enc (id size : Nat) (hid : id < 4294967296)
    (hsize : size < 4294967296) (rest : List Nat) :
    readSubChunk (encBE32 id ++ (encLE32 size ++ rest)) =
      Except.ok ({ Id := id, Size := size }, rest) := by
  simp only [readSubChunk, readU32BE_encBE32 id hid,
    readU32LE_encLE32 size hsize]

/-- Reading back an encoded fmt payload recovers the six fields. -/
theorem readFmtPayload_fmtPayloadBytes (f : FmtChunk)
    (hAF : f.AudioFormat < 65536) (hNC : f.NumChannels < 65536)
    (hSR : f.SampleRate < 4294967296) (hBR : f.ByteRate < 4294967296)
    (hBA : f.BlockAlign < 65536) (hBPS : f.BitsPerSample < 65536)
    (rest : List Nat) :
    readFmtPayload (fmtPayloadBytes f ++ rest) =
      Except.ok ((f.AudioFormat, f.NumChannels, f.SampleRate, f.ByteRate,
        f.BlockAlign, f.BitsPerSample), rest) := by
  simp only [fmtPayloadBytes, encLE16, encLE32, List.cons_append,
    List.nil_append, readFmtPayload, Except.ok.injEq, Prod.mk.injEq]
  refine ⟨⟨?_, ?_, ?_, ?_, ?_, ?_⟩, trivial⟩ <;> omega

/-- C8: round-trip — the bytes the writer emits for a fmt chunk at
offsets 12-36 (big-endian tag, little-endian size, 16-byte little-endian
payload), parsed back through the reader's fmt-chunk path, reproduce the
descriptor field for field, for every in-range descriptor whose tag is
the "fmt " code the reader validates against. -/
theorem fmtChunkRoundTrip (f : FmtChunk) (rest : List Nat)
    (hId : f.Id = 1718449184) (hSize : f.Size < 4294967296)
    (hAF : f.AudioFormat < 65536) (hNC : f.NumChannels < 65536)
    (hSR : f.SampleRate < 4294967296) (hBR : f.ByteRate < 4294967296)
    (hBA : f.BlockAlign < 65536) (hBPS : f.BitsPerSample < 65536) :
    readFormatChunk (writeFmtBytes f ++ rest) = Except.ok (f, rest) := by
  obtain ⟨fid, fsz, faf, fnc, fsr, fbr, fba, fbps⟩ := f
  simp only at hId hSize hAF hNC hSR hBR hBA hBPS
  subst hId
  simp only [writeFmtBytes, List.append_assoc, readFormatChunk,
    readSubChunk_enc 1718449184 fsz (by decide) hSize]
  rw [if_pos (by decide)]
  simp only [readFmtPayload_fmtPayloadBytes
    { Id := 1718449184, Size := fsz, AudioFormat := faf, NumChannels := fnc,
      SampleRate := fsr, ByteRate := fbr, BlockAlign := fba,
      BitsPerSample := fbps } hAF hNC hSR hBR hBA hBPS rest]

/-- C8 witness: the default format descriptor survives the round trip. -/
theorem fmtChunkRoundTripWitness :
    NewDefaultFmtChunk.Id = 1718449184 ∧
    NewDefaultFmtChunk.Size < 4294967296 ∧
    NewDefaultFmtChunk.AudioFormat < 65536 ∧
    NewDefaultFmtChunk.NumChannels < 65536 ∧
    NewDefaultFmtChunk.SampleRate < 4294967296 ∧
    NewDefaultFmtChunk.ByteRate < 4294967296 ∧
    NewDefaultFmtChunk.BlockAlign < 65536 ∧
    NewDefaultFmtChunk.BitsPerSample < 65536 ∧
    readFormatChunk (writeFmtBytes NewDefaultFmtChunk ++ [7, 7]) =
      Except.ok (NewDefaultFmtChunk, [7, 7]) :=
  ⟨by decide, by decide, by decide, by decide, by decide, by decide,
    by decide, by decide,
    fmtChunkRoundTrip NewDefaultFmtChunk [7, 7] (by decide) (by decide)
      (by decide) (by decide) (by decide) (by decide) (by decide)
      (by decide)⟩

/-- Unfolding `readRiffHeader` once the sub-chunk header is known. -/
theorem readRiffHeader_after_sub {s s1 : List Nat} {id size : Nat}
    (h : readSubChunk s = Except.ok ({ Id := id, Size := size }, s1)) :
    readRiffHeader s =
      (if uint32AsString id = Riff then
        (match readU32BE s1 with
         | Except.error e =>
             Except.error (WavError.formatReadErr (errMessage e))
         | Except.ok (format, s2) =>
             if uint32AsString format = Wave then
               Except.ok ({ Id := id, Size := size, Format := format }, s2)
             else Except.error (WavError.waveErr (uint32AsString format)))
      else Except.error (WavError.riffErr (uint32AsString id))) := by
  rw [readRiffHeader, h]

/-- A RIFF tag that does not decode to "RIFF" yields the RIFF tag
error. -/
theorem readRiffHeader_badTag (id sz : Nat) (hid : id < 4294967296)
    (hsz : sz < 4294967296) (h : uint32AsString id ≠ Riff)
    (rest : List Nat) :
    readRiffHeader (encBE32 id ++ (encLE32 sz ++ rest)) =
      Except.error (WavError.riffErr (uint32AsString id)) := by
  rw [readRiffHeader_after_sub (readSubChunk_enc id sz hid hsz rest),
    if_neg h]

/-- Evaluation of `readRiffHeader` on a fully encoded header. -/
theorem readRiffHeader_enc (id sz fm : Nat) (hid : id < 4294967296)
    (hsz : sz < 4294967296) (hfm : fm < 4294967296) (rest : List Nat) :
    readRiffHeader (encBE32 id ++ (encLE32 sz ++ (encBE32 fm ++ rest))) =
      (if uint32AsString id = Riff then
        (if uint32AsString fm = Wave then
          Except.ok ({ Id := id, Size := sz, Format := fm }, rest)
        else Except.error (WavError.waveErr (uint32AsString fm)))
      else Except.error (WavError.riffErr (uint32AsString id))) := by
  rw [readRiffHeader_after_sub (readSubChunk_enc id sz hid hsz _),
    readU32BE_encBE32 fm hfm rest]

/-- Unfolding `readFormatChunk` once the sub-chunk header is known. -/
theorem readFormatChunk_after_sub {s s1 : List Nat} {id size : Nat}
    (h : readSubChunk s = Except.ok ({ Id := id, Size := size }, s1)) :
    readFormatChunk s =
      (if uint32AsString id = Fmt then
        (match readFmtPayload s1 with
         | Except.error e => Except.error e
         | Except.ok ((af, nc, sr, br, ba, bps), s2) =>
             Except.ok ({ Id := id, Size := size, AudioFormat := af,
                          NumChannels := nc, SampleRate := sr,
                          ByteRate := br, BlockAlign := ba,
                          BitsPerSample := bps }, s2))
      else Except.error (WavError.fmtErr (uint32AsString id))) := by
  rw [readFormatChunk, h]

/-- A fmt tag that does not decode to "fmt " yields the fmt tag error. -/
theorem readFormatChunk_badTag (id sz : Nat) (hid : id < 4294967296)
    (hsz : sz < 4294967296) (h : uint32AsString id ≠ Fmt)
    (rest : List Nat) :
    readFormatChunk (encBE32 id ++ (encLE32 sz ++ rest)) =
      Except.error (WavError.fmtErr (uint32AsString id)) := by
  rw [readFormatChunk_after_sub (readSubChunk_enc id sz hid hsz rest),
    if_neg h]

/-- An all-zero 16-byte payload decodes to six zero fields. -/
theorem readFmtPayload_zero (rest : List Nat) :
    readFmtPayload (List.replicate 16 0 ++ rest) =
      Except.ok ((0, 0, 0, 0, 0, 0), rest) := rfl

/-- Unfolding `readDataChunk` once the sub-chunk header is known. -/
theorem readDataChunk_after_sub {s s1 : List Nat} {id size : Nat}
    (h : readSubChunk s = Except.ok ({ Id := id, Size := size }, s1)) :
    readDataChunk s =
      (if uint32AsString id = Data then
        Except.ok ({ Id := id, Size := size, Samples := [] }, s1)
      else Except.error (WavError.dataErr (uint32AsString id))) := by
  rw [readDataChunk, h]

/-- A data tag that does not decode to "data" yields the data tag
error. -/
theorem readDataChunk_badTag (id sz : Nat) (hid : id < 4294967296)
    (hsz : sz < 4294967296) (h : uint32AsString id ≠ Data)
    (rest : List Nat) :
    readDataChunk (encBE32 id ++ (encLE32 sz ++ rest)) =
      Except.error (WavError.dataErr (uint32AsString id)) := by
  rw [readDataChunk_after_sub (readSubChunk_enc id sz hid hsz rest),
    if_neg h]

/-- Reader construction after a successful RIFF header parse. -/
theorem NewWavReader_after_riff {s s1 : List Nat} {riff : RiffHeader}
    (h : readRiffHeader s = Except.ok (riff, s1)) :
    NewWavReader s =
      (match readFormatChunk s1 with
       | Except.error e => Except.error e
       | Except.ok (fmt, s2) =>
         match readDataChunk s2 with
         | Except.error e => Except.error e
         | Except.ok (data, s3) =>
           Except.ok { Riff := riff, Fmt := fmt, Data := data,
                       buffer := s3 }) := by
  rw [NewWavReader, h]

/-- Reader construction after successful RIFF and fmt parses. -/
theorem NewWavReader_after_fmt {s s1 s2 : List Nat} {riff : RiffHeader}
    {fmt : FmtChunk}
    (h1 : readRiffHeader s = Except.ok (riff, s1))
    (h2 : readFormatChunk s1 = Except.ok (fmt, s2)) :
    NewWavReader s =
      (match readDataChunk s2 with
       | Except.error e => Except.error e
       | Except.ok (data, s3) =>
         Except.ok { Riff := riff, Fmt := fmt, Data := data,
                     buffer := s3 }) := by
  rw [NewWavReader_after_riff h1, h2]

/-- A RIFF-header error aborts reader construction with that error. -/
theorem NewWavReader_riffErrProp {s : List Nat} {e : WavError}
    (h : readRiffHeader s = Except.error e) :
    NewWavReader s = Except.error e := by
  rw [NewWavReader, h]

/-- A fmt-chunk error aborts reader construction with that error. -/
theorem NewWavReader_fmtErrProp {s s1 : List Nat} {riff : RiffHeader}
    {e : WavError}
    (h1 : readRiffHeader s = Except.ok (riff, s1))
    (h2 : readFormatChunk s1 = Except.error e) :
    NewWavReader s = Except.error e := by
  rw [NewWavReader_after_riff h1, h2]

/-- A data-chunk error aborts reader construction with that error. -/
theorem NewWavReader_dataErrProp {s s1 s2 : List Nat} {riff : RiffHeader}
    {fmt : FmtChunk} {e : WavError}
    (h1 : readRiffHeader s = Except.ok (riff, s1))
    (h2 : readFormatChunk s1 = Except.ok (fmt, s2))
    (h3 : readDataChunk s2 = Except.error e) :
    NewWavReader s = Except.error e := by
  rw [NewWavReader_after_fmt h1 h2, h3]

/-- C4 (amended): a tag failing validation aborts reader construction
with a tag-specific error.  The RIFF, fmt and data mismatches produce
messages of the form "invalid <chunk> chunk ID of <actual>; should be
<expected>" (with <chunk> reading "initial" for the RIFF tag and the fmt
message carrying a trailing period), where <actual> is the offending tag
decoded as big-endian ASCII; the WAVE format-field mismatch instead
produces "invalid format of <actual>; should be WAVE", with no
"chunk ID" wording. -/
theorem tagValidationErrorMessages (t sz : Nat) (ht : t < 4294967296)
    (hsz : sz < 4294967296)
    (h1 : uint32AsString t ≠ Riff) (h2 : uint32AsString t ≠ Wave)
    (h3 : uint32AsString t ≠ Fmt) (h4 : uint32AsString t ≠ Data) :
    (∀ rest, NewWavReader (encBE32 t ++ (encLE32 sz ++ rest)) =
      Except.error (WavError.riffErr (uint32AsString t))) ∧
    errMessage (WavError.riffErr (uint32AsString t)) =
      "invalid initial chunk ID of " ++ uint32AsString t ++
        "; should be " ++ quoteStr ++ "RIFF" ++ quoteStr ∧
    (∀ rest, NewWavReader (encBE32 1380533830 ++ (encLE32 sz ++
        (encBE32 t ++ rest))) =
      Except.error (WavError.waveErr (uint32AsString t))) ∧
    errMessage (WavError.waveErr (uint32AsString t)) =
      "invalid format of " ++ uint32AsString t ++ "; should be " ++
        quoteStr ++ "WAVE" ++ quoteStr ∧
    (∀ rest, NewWavReader (validRiff ++ (encBE32 t ++
        (encLE32 sz ++ rest))) =
      Except.error (WavError.fmtErr (uint32AsString t))) ∧
    errMessage (WavError.fmtErr (uint32AsString t)) =
      "invalid fmt chunk ID of " ++ uint32AsString t ++ "; should be " ++
        quoteStr ++ "fmt " ++ quoteStr ++ "." ∧
    (∀ rest, NewWavReader (validRiff ++ (validFmt ++ (encBE32 t ++
        (encLE32 sz ++ rest)))) =
      Except.error (WavError.dataErr (uint32AsString t))) ∧
    errMessage (WavError.dataErr (uint32AsString t)) =
      "invalid data chunk ID of " ++ uint32AsString t ++ "; should be " ++
        quoteStr ++ "data" ++ quoteStr := by
  refine ⟨fun rest => ?_, rfl, fun rest => ?_, rfl, fun rest => ?_, rfl,
    fun rest => ?_, rfl⟩
  · exact NewWavReader_riffErrProp (readRiffHeader_badTag t sz ht hsz h1 rest)
  · refine NewWavReader_riffErrProp ?_
    rw [readRiffHeader_enc 1380533830 sz t (by decide) hsz ht rest,
      if_pos (by decide), if_neg h2]
  · rw [show validRiff ++ (encBE32 t ++ (encLE32 sz ++ rest)) =
      encBE32 1380533830 ++ (encLE32 0 ++ (encBE32 1463899717 ++
        (encBE32 t ++ (encLE32 sz ++ rest)))) from by
        simp [validRiff, List.append_assoc]]
    have hrh : readRiffHeader (encBE32 1380533830 ++ (encLE32 0 ++
        (encBE32 1463899717 ++ (encBE32 t ++ (encLE32 sz ++ rest))))) =
        Except.ok ({ Id := 1380533830, Size := 0, Format := 1463899717 },
          encBE32 t ++ (encLE32 sz ++ rest)) := by
      rw [readRiffHeader_enc 1380533830 0 1463899717 (by decide) (by decide)
        (by decide) _, if_pos (by decide), if_pos (by decide)]
    exact NewWavReader_fmtErrProp hrh
      (readFormatChunk_badTag t sz ht hsz h3 rest)
  · rw [show validRiff ++ (validFmt ++ (encBE32 t ++ (encLE32 sz ++ rest)))
      = encBE32 1380533830 ++ (encLE32 0 ++ (encBE32 1463899717 ++
        (validFmt ++ (encBE32 t ++ (encLE32 sz ++ rest))))) from by
        simp [validRiff, List.append_assoc]]
    have hrh : readRiffHeader (encBE32 1380533830 ++ (encLE32 0 ++
        (encBE32 1463899717 ++ (validFmt ++ (encBE32 t ++
          (encLE32 sz ++ rest)))))) =
        Except.ok ({ Id := 1380533830, Size := 0, Format := 1463899717 },
          validFmt ++ (encBE32 t ++ (encLE32 sz ++ rest))) := by
      rw [readRiffHeader_enc 1380533830 0 1463899717 (by decide) (by decide)
        (by decide) _, if_pos (by decide), if_pos (by decide)]
    have hfm : readFormatChunk (validFmt ++ (encBE32 t ++
        (encLE32 sz ++ rest))) =
        Except.ok ({ Id := 1718449184, Size := 16, AudioFormat := 0,
                     NumChannels := 0, SampleRate := 0, ByteRate := 0,
                     BlockAlign := 0, BitsPerSample := 0 },
          encBE32 t ++ (encLE32 sz ++ rest)) := by
      rw [show validFmt ++ (encBE32 t ++ (encLE32 sz ++ rest)) =
        encBE32 1718449184 ++ (encLE32 16 ++ (List.replicate 16 0 ++
          (encBE32 t ++ (encLE32 sz ++ rest)))) from by
          simp [validFmt, List.append_assoc]]
      rw [readFormatChunk_after_sub
        (readSubChunk_enc 1718449184 16 (by decide) (by decide) _),
        if_pos (by decide), readFmtPayload_zero]
    exact NewWavReader_dataErrProp hrh hfm
      (readDataChunk_badTag t sz ht hsz h4 rest)

/-- C4 witness: the tag "XXXX" (value 1482184792) fails each of the four
validations with the corresponding error. -/
theorem tagValidationErrorMessagesWitness :
    (1482184792 : Nat) < 4294967296 ∧ (0 : Nat) < 4294967296 ∧
    uint32AsString 1482184792 ≠ Riff ∧
    uint32AsString 1482184792 ≠ Wave ∧
    uint32AsString 1482184792 ≠ Fmt ∧
    uint32AsString 1482184792 ≠ Data ∧
    NewWavReader (encBE32 1482184792 ++ (encLE32 0 ++ [])) =
      Except.error (WavError.riffErr (uint32AsString 1482184792)) ∧
    NewWavReader (encBE32 1380533830 ++ (encLE32 0 ++
        (encBE32 1482184792 ++ []))) =
      Except.error (WavError.waveErr (uint32AsString 1482184792)) ∧
    NewWavReader (validRiff ++ (encBE32 1482184792 ++ (encLE32 0 ++ []))) =
      Except.error (WavError.fmtErr (uint32AsString 1482184792)) ∧
    NewWavReader (validRiff ++ (validFmt ++ (encBE32 1482184792 ++
        (encLE32 0 ++ [])))) =
      Except.error (WavError.dataErr (uint32AsString 1482184792)) :=
  ⟨by decide, by decide, by decide, by decide, by decide, by decide,
    (tagValidationErrorMessages 1482184792 0 (by decide) (by decide)
      (by decide) (by decide) (by decide) (by decide)).1 [],
    (tagValidationErrorMessages 1482184792 0 (by decide) (by decide)
      (by decide) (by decide) (by decide) (by decide)).2.2.1 [],
    (tagValidationErrorMessages 1482184792 0 (by decide) (by decide)
      (by decide) (by decide) (by decide) (by decide)).2.2.2.2.1 [],
    (tagValidationErrorMessages 1482184792 0 (by decide) (by decide)
      (by decide) (by decide) (by decide) (by decide)).2.2.2.2.2.2.1 []⟩

end WavSpec
